import Mathlib

/-!
Verification of the mail transmission and configuration core of
Michaelsoft Mail Sender (src/mail_sender.py).

The embedding models:
  * the in-memory configuration (a Python dict from string keys to string
    values) as an association list with unique keys,
  * the configuration file system as a partial map from paths to file
    contents, where a file content is either a parseable JSON object of
    string entries or unparseable text,
  * the outside world (attachment reads, SMTP connect / login / sendmail
    outcomes, file writability) as an oracle record,
  * every observable side effect (log lines, file writes, network
    operations) as an explicit effect trace.

Each Lean definition is translated from the corresponding Python routine:
MailSender.load_config, MailSender.save_config, MailSender.send_mail and
MailSenderGUI._test_connection.
-/

/-- Configuration: Python dict from string keys to string values,
represented as an association list (first occurrence wins on lookup;
real dicts have unique keys). -/
abbrev Config := List (String × String)

/-- Lookup: Python dict.get, returning None when the key is absent. -/
def cfgGet : Config → String → Option String
  | [], _ => none
  | (k0, v0) :: rest, k => if k0 = k then some v0 else cfgGet rest k

/-- Key list of a configuration. -/
def cfgKeys (c : Config) : List String := c.map Prod.fst

/-- Single-key assignment, as in a Python dict: replace the value of an
existing key in place, otherwise append the new entry at the end. -/
def cfgSetKey : Config → String → String → Config
  | [], k, v => [(k, v)]
  | (k0, v0) :: rest, k, v =>
      if k0 = k then (k, v) :: rest else (k0, v0) :: cfgSetKey rest k v

/-- Python dict.update: assign each entry of the argument list in order. -/
def cfgUpdate (c : Config) : List (String × String) → Config
  | [] => c
  | (k, v) :: rest => cfgUpdate (cfgSetKey c k v) rest

/-- Python truthiness of dict.get's result: None and the empty string are
falsy, every other string is truthy. -/
def truthy : Option String → Bool
  | none => false
  | some s => !s.isEmpty

/-- Value of the last entry with the given key, if any (the value a
sequence of dict assignments leaves behind). -/
def lastVal : List (String × String) → String → Option String
  | [], _ => none
  | (k0, v0) :: rest, k =>
      match lastVal rest k with
      | some v => some v
      | none => if k0 = k then some v0 else none

/-- Left-biased choice on optional values. -/
def oor : Option String → Option String → Option String
  | some v, _ => some v
  | none, o => o

/-- Digit run of a Python integer literal: digits with single underscores
allowed between digits (grammar digit (underscore? digit)*), accumulating
the value. -/
def pyDigitsGo (acc : Nat) : List Char → Option Nat
  | [] => some acc
  | '_' :: c :: rest =>
      if c.isDigit then pyDigitsGo (acc * 10 + (c.toNat - 48)) rest else none
  | ['_'] => none
  | c :: rest =>
      if c.isDigit then pyDigitsGo (acc * 10 + (c.toNat - 48)) rest else none

/-- Nonempty digit run starting with a digit. -/
def pyDigits : List Char → Option Nat
  | [] => none
  | c :: rest => if c.isDigit then pyDigitsGo (c.toNat - 48) rest else none

/-- Surrounding whitespace stripped from a character list, as Python's
int() does before parsing. -/
def stripWs (cs : List Char) : List Char :=
  ((cs.dropWhile Char.isWhitespace).reverse.dropWhile Char.isWhitespace).reverse

/-- Python int(str): strip surrounding whitespace, optional sign, then a
digit run; returns none when the string is not a valid integer literal
(the ValueError case of the builtin). -/
def pyInt? (s : String) : Option Int :=
  match stripWs s.toList with
  | '+' :: rest => (pyDigits rest).map (fun n => (n : Int))
  | '-' :: rest => (pyDigits rest).map (fun n => -(n : Int))
  | cs => (pyDigits cs).map (fun n => (n : Int))

/-- os.path.basename for forward-slash paths: the part after the last
separator. -/
def basename (p : String) : String := (p.splitOn "/").getLastD ""

/-- A binary attachment part: declared file name and raw content. -/
structure AttachPart where
  name : String
  content : String
  deriving DecidableEq

/-- The composed MIME message: headers, one body part (plain or HTML),
and the attachment parts in order. -/
structure MailMessage where
  fromAddr : String
  toHeader : String
  subject : String
  body : String
  isHtml : Bool
  attachParts : List AttachPart
  deriving DecidableEq

/-- Contents of the configuration file: a parseable JSON object of string
entries, or unparseable text carrying the parse error message. -/
inductive FileContent where
  | obj (entries : List (String × String))
  | invalid (msg : String)
  deriving DecidableEq

/-- File system: partial map from paths to file contents. -/
abbrev FS := String → Option FileContent

/-- Observable side effects of the core operations. -/
inductive Effect where
  | logInfo (msg : String)
  | logWarning (msg : String)
  | logError (msg : String)
  | fsWrite (path : String) (content : FileContent)
  | netConnect (server : String) (port : Int)
  | netLogin (email : String) (pw : String)
  | netSend (fromAddr : String) (rcpts : List String) (msg : MailMessage)
  deriving DecidableEq

/-- Whether an effect is a network operation. -/
def Effect.isNet : Effect → Bool
  | .netConnect _ _ => true
  | .netLogin _ _ => true
  | .netSend _ _ _ => true
  | _ => false

/-- Whether an effect writes to the file system. -/
def Effect.isWriteFs : Effect → Bool
  | .fsWrite _ _ => true
  | _ => false

/-- Outcome of writing the configuration file with open(path, 'w')
followed by json.dump. The open call truncates the file before the dump
runs, so an I/O failure has two shapes: the open itself fails (for
example permission denied) and the file is untouched, or the open
succeeds and the dump fails midway, leaving whatever partial content had
been written by then. -/
inductive WriteResult where
  | ok
  | openFail (e : String)
  | dumpFail (e : String) (leftover : FileContent)

/-- Oracle for the outside world: attachment reads, the three network
steps of an SMTP-over-TLS exchange, and the outcome of writing the
configuration file. Errors carry the exception message the Python
runtime would produce. -/
structure World where
  readFile : String → Except String String
  connect : String → Int → Except String Unit
  login : String → String → Except String Unit
  sendmail : String → List String → MailMessage → Except String Unit
  write : String → WriteResult

/-- Attachment loop of send_mail: read each path in order; on success
attach a part named by the file's basename, on failure log an error for
that path and continue. Returns the parts and the logged effects. -/
def buildAttachments (w : World) : List String → List AttachPart × List Effect
  | [] => ([], [])
  | p :: rest =>
      let r := buildAttachments w rest
      match w.readFile p with
      | .ok content => ({ name := basename p, content := content } :: r.1, r.2)
      | .error e => (r.1, Effect.logError ("添加附件 " ++ p ++ " 失败: " ++ e) :: r.2)

/-- Message construction of send_mail: From is the configured sender,
To is the comma-joined recipient list, one body part (HTML or plain),
then the attachment parts. -/
def composeMessage (cfg : Config) (rcpts : List String) (subject body : String)
    (html : Bool) (parts : List AttachPart) : MailMessage :=
  { fromAddr := (cfgGet cfg "sender_email").getD ""
    toHeader := String.intercalate ", " rcpts
    subject := subject
    body := body
    isHtml := html
    attachParts := parts }

/-- Transmission phase of send_mail (the try block): convert the port
with int(), open the TLS connection, authenticate, transmit. Any step's
failure is returned as the raised exception's message; the effect list
records the network operations attempted. -/
def transmitPhase (w : World) (server portStr email pw : String)
    (rcpts : List String) (msg : MailMessage) : List Effect × Except String Unit :=
  match pyInt? portStr with
  | none => ([], Except.error ("invalid literal for int() with base 10: '" ++ portStr ++ "'"))
  | some port =>
      match w.connect server port with
      | .error e => ([Effect.netConnect server port], Except.error e)
      | .ok _ =>
          match w.login email pw with
          | .error e =>
              ([Effect.netConnect server port, Effect.netLogin email pw], Except.error e)
          | .ok _ =>
              match w.sendmail email rcpts msg with
              | .error e =>
                  ([Effect.netConnect server port, Effect.netLogin email pw,
                    Effect.netSend email rcpts msg], Except.error e)
              | .ok _ =>
                  ([Effect.netConnect server port, Effect.netLogin email pw,
                    Effect.netSend email rcpts msg], Except.ok ())

/-- Result of MailSender.send_mail: the boolean return value, whether all
three validation checks passed, the composed message (when composition
was reached), the effect trace, and the in-memory configuration at
return time. -/
structure SendResult where
  result : Bool
  validatedOk : Bool
  message : Option MailMessage
  effects : List Effect
  configAfter : Config

/-- MailSender.send_mail: validate recipients and the four configuration
keys, compose the message with the readable attachments, then run the
transmission phase inside a try block that logs any failure and returns
False; on success log the recipients and return True. -/
def send_mail (cfg : Config) (recipients : List String) (subject body : String)
    (attachments : List String) (html : Bool) (w : World) : SendResult :=
  if recipients.isEmpty then
    { result := false, validatedOk := false, message := none
      effects := [Effect.logError "收件人列表为空"], configAfter := cfg }
  else if !truthy (cfgGet cfg "smtp_server") || !truthy (cfgGet cfg "smtp_port") then
    { result := false, validatedOk := false, message := none
      effects := [Effect.logError "SMTP服务器配置不完整"], configAfter := cfg }
  else if !truthy (cfgGet cfg "sender_email") || !truthy (cfgGet cfg "password") then
    { result := false, validatedOk := false, message := none
      effects := [Effect.logError "发件人信息配置不完整"], configAfter := cfg }
  else
    match transmitPhase w ((cfgGet cfg "smtp_server").getD "") ((cfgGet cfg "smtp_port").getD "")
        ((cfgGet cfg "sender_email").getD "") ((cfgGet cfg "password").getD "") recipients
        (composeMessage cfg recipients subject body html (buildAttachments w attachments).1) with
    | (netEffects, Except.ok _) =>
        { result := true, validatedOk := true
          message := some (composeMessage cfg recipients subject body html
            (buildAttachments w attachments).1)
          effects := (buildAttachments w attachments).2 ++ netEffects ++
            [Effect.logInfo ("邮件已成功发送给 " ++ String.intercalate ", " recipients)]
          configAfter := cfg }
    | (netEffects, Except.error e) =>
        { result := false, validatedOk := true
          message := some (composeMessage cfg recipients subject body html
            (buildAttachments w attachments).1)
          effects := (buildAttachments w attachments).2 ++ netEffects ++
            [Effect.logError ("发送邮件失败: " ++ e)]
          configAfter := cfg }

/-- Outcome of MailSenderGUI._test_connection. -/
inductive TestStatus where
  | incomplete
  | success
  | failure (msg : String)
  deriving DecidableEq

/-- MailSenderGUI._test_connection: reject when any field is empty,
otherwise connect and authenticate inside a try block; any failure
(including the int() conversion of the port) is reported as failure. -/
def test_connection (server portStr email pw : String) (w : World) :
    TestStatus × List Effect :=
  if server.isEmpty || portStr.isEmpty || email.isEmpty || pw.isEmpty then
    (TestStatus.incomplete, [])
  else
    match pyInt? portStr with
    | none =>
        (TestStatus.failure ("invalid literal for int() with base 10: '" ++ portStr ++ "'"), [])
    | some port =>
        match w.connect server port with
        | .error e => (TestStatus.failure e, [Effect.netConnect server port])
        | .ok _ =>
            match w.login email pw with
            | .error e =>
                (TestStatus.failure e, [Effect.netConnect server port, Effect.netLogin email pw])
            | .ok _ =>
                (TestStatus.success, [Effect.netConnect server port, Effect.netLogin email pw])

/-- Result of MailSender.load_config: the in-memory configuration after
the call, the effect trace, and the caller-visible outcome (ok means the
call returned normally; error would mean an exception escaped). -/
structure LoadResult where
  config : Config
  effects : List Effect
  ret : Except String Unit

/-- MailSender.load_config: when the file exists and parses, merge its
entries into the in-memory configuration with dict.update; when it is
absent, warn and keep the defaults; when parsing fails, the exception is
caught and logged. In every case the call returns normally. -/
def load_config (cfg : Config) (fs : FS) (path : String) : LoadResult :=
  match fs path with
  | none =>
      { config := cfg
        effects := [Effect.logWarning ("配置文件 " ++ path ++ " 不存在，使用默认配置")]
        ret := Except.ok () }
  | some (FileContent.obj entries) =>
      { config := cfgUpdate cfg entries
        effects := [Effect.logInfo ("配置已从 " ++ path ++ " 加载")]
        ret := Except.ok () }
  | some (FileContent.invalid e) =>
      { config := cfg
        effects := [Effect.logError ("加载配置文件失败: " ++ e)]
        ret := Except.ok () }

/-- Result of MailSender.save_config: the file system after the call, the
effect trace, and the caller-visible outcome. -/
structure SaveResult where
  fs : FS
  effects : List Effect
  ret : Except String Unit

/-- MailSender.save_config: open(path, 'w') truncates the file, then
json.dump serializes the whole in-memory configuration into it. When the
open fails the file is untouched; when the dump fails midway the file
holds whatever partial content was written before the failure ("no
partial file is guaranteed"). Either exception is caught and logged, and
in every case the call returns normally. -/
def save_config (cfg : Config) (fs : FS) (path : String) (w : World) : SaveResult :=
  match w.write path with
  | .ok =>
      { fs := fun q => if q = path then some (FileContent.obj cfg) else fs q
        effects := [Effect.fsWrite path (FileContent.obj cfg),
          Effect.logInfo ("配置已保存到 " ++ path)]
        ret := Except.ok () }
  | .openFail e =>
      { fs := fs
        effects := [Effect.logError ("保存配置文件失败: " ++ e)]
        ret := Except.ok () }
  | .dumpFail e leftover =>
      { fs := fun q => if q = path then some leftover else fs q
        effects := [Effect.fsWrite path leftover,
          Effect.logError ("保存配置文件失败: " ++ e)]
        ret := Except.ok () }

/-! ### Basic facts about the effect traces -/

theorem isNet_logError (s : String) : (Effect.logError s).isNet = false := rfl

theorem buildAttachments_snd_logError (w : World) (l : List String) :
    ∀ ef ∈ (buildAttachments w l).2, ∃ s, ef = Effect.logError s := by
  induction l with
  | nil => intro ef hef; simp [buildAttachments] at hef
  | cons p rest ih =>
    intro ef hef
    unfold buildAttachments at hef
    cases hr : w.readFile p with
    | ok c => rw [hr] at hef; exact ih ef hef
    | error e =>
      rw [hr] at hef
      rcases List.mem_cons.mp hef with h | h
      · exact ⟨_, h⟩
      · exact ih ef h

theorem transmitPhase_fst_net (w : World) (server portStr email pw : String)
    (rcpts : List String) (msg : MailMessage) :
    ∀ ef ∈ (transmitPhase w server portStr email pw rcpts msg).1, ef.isNet = true := by
  intro ef hef
  unfold transmitPhase at hef
  cases hp : pyInt? portStr with
  | none => simp [hp] at hef
  | some port =>
    simp only [hp] at hef
    cases hc : w.connect server port with
    | error e => simp only [hc] at hef; simp at hef; subst hef; rfl
    | ok u =>
      simp only [hc] at hef
      cases hl : w.login email pw with
      | error e =>
        simp only [hl] at hef
        rcases List.mem_cons.mp hef with h | h
        · subst h; rfl
        · simp at h; subst h; rfl
      | ok u2 =>
        simp only [hl] at hef
        cases hs : w.sendmail email rcpts msg with
        | error e =>
          simp only [hs] at hef
          rcases List.mem_cons.mp hef with h | h
          · subst h; rfl
          · rcases List.mem_cons.mp h with h2 | h2
            · subst h2; rfl
            · simp at h2; subst h2; rfl
        | ok u3 =>
          simp only [hs] at hef
          rcases List.mem_cons.mp hef with h | h
          · subst h; rfl
          · rcases List.mem_cons.mp h with h2 | h2
            · subst h2; rfl
            · simp at h2; subst h2; rfl

theorem Effect.net_not_writeFs (ef : Effect) (h : ef.isNet = true) : ef.isWriteFs = false := by
  cases ef <;> first | rfl | exact absurd h (by simp [Effect.isNet])

/-! ### Claim theorems: validation fast-fails and the frame property -/

/-- C1: for every configuration, arguments and world, send_mail with an
empty recipients list returns False and its effect trace contains no
network operation. -/
theorem claim_C1_empty_recipients (cfg : Config) (subject body : String)
    (atts : List String) (html : Bool) (w : World) :
    (send_mail cfg [] subject body atts html w).result = false ∧
    ((send_mail cfg [] subject body atts html w).effects.all (fun ef => !ef.isNet)) = true := by
  exact ⟨rfl, rfl⟩

/-- C2: whenever any of the four transmission-relevant keys is missing or
empty, send_mail with a non-empty recipients list returns False and its
effect trace contains no network operation. -/
theorem claim_C2_incomplete_config (cfg : Config) (rcpts : List String) (subject body : String)
    (atts : List String) (html : Bool) (w : World) (h0 : rcpts ≠ [])
    (h : truthy (cfgGet cfg "smtp_server") = false ∨ truthy (cfgGet cfg "smtp_port") = false ∨
         truthy (cfgGet cfg "sender_email") = false ∨ truthy (cfgGet cfg "password") = false) :
    (send_mail cfg rcpts subject body atts html w).result = false ∧
    ((send_mail cfg rcpts subject body atts html w).effects.all (fun ef => !ef.isNet)) = true := by
  have hre : rcpts.isEmpty = false := by
    cases rcpts with
    | nil => exact absurd rfl h0
    | cons a t => rfl
  rcases h with h | h | h | h <;>
    by_cases hs : truthy (cfgGet cfg "smtp_server") <;>
    by_cases hp : truthy (cfgGet cfg "smtp_port") <;>
      simp_all [send_mail, Effect.isNet]

/-- C8: send_mail leaves the in-memory configuration exactly as it was
and writes nothing to the file system, and test_connection writes
nothing to the file system, for every input and world. -/
theorem claim_C8_no_config_mutation (cfg : Config) (rcpts : List String) (subject body : String)
    (atts : List String) (html : Bool) (w : World) (server portStr email pw : String) :
    (send_mail cfg rcpts subject body atts html w).configAfter = cfg ∧
    ((send_mail cfg rcpts subject body atts html w).effects.all (fun ef => !ef.isWriteFs)) = true ∧
    ((test_connection server portStr email pw w).2.all (fun ef => !ef.isWriteFs)) = true := by
  refine ⟨?_, ?_, ?_⟩
  · unfold send_mail
    split
    · rfl
    · split
      · rfl
      · split
        · rfl
        · split <;> rfl
  · unfold send_mail
    split
    · rfl
    · split
      · rfl
      · split
        · rfl
        · split <;>
          · rename_i netEffects u heq
            rw [List.all_eq_true]
            intro ef hef
            rcases List.mem_append.mp hef with h1 | h1
            · rcases List.mem_append.mp h1 with h2 | h2
              · obtain ⟨s, rfl⟩ := buildAttachments_snd_logError w atts ef h2
                rfl
              · have hn : ef ∈ (transmitPhase w ((cfgGet cfg "smtp_server").getD "")
                    ((cfgGet cfg "smtp_port").getD "") ((cfgGet cfg "sender_email").getD "")
                    ((cfgGet cfg "password").getD "") rcpts
                    (composeMessage cfg rcpts subject body html
                      (buildAttachments w atts).1)).1 := by
                  rw [heq]; exact h2
                have := transmitPhase_fst_net w _ _ _ _ rcpts _ ef hn
                simp [Effect.net_not_writeFs ef this]
            · simp at h1; subst h1; rfl
  · unfold test_connection
    split
    · rfl
    · split
      · rfl
      · split
        · rfl
        · split
          · rfl
          · rfl

/-! ### Attachment handling and the transmission try block -/

/-- Outcome of one attachment read: the part that send_mail attaches when
the path is readable, none when the read raises. -/
def readPart (w : World) (p : String) : Option AttachPart :=
  match w.readFile p with
  | .ok c => some { name := basename p, content := c }
  | .error _ => none

theorem buildAttachments_fst (w : World) (l : List String) :
    (buildAttachments w l).1 = l.filterMap (readPart w) := by
  induction l with
  | nil => rfl
  | cons p rest ih =>
    simp only [buildAttachments]
    cases hr : w.readFile p <;> simp [readPart, hr, ih]

theorem buildAttachments_snd_mem (w : World) (l : List String) (p : String) (e : String)
    (hmem : p ∈ l) (hr : w.readFile p = Except.error e) :
    Effect.logError ("添加附件 " ++ p ++ " 失败: " ++ e) ∈ (buildAttachments w l).2 := by
  revert hmem
  induction l with
  | nil => intro hmem; cases hmem
  | cons q rest ih =>
    intro hmem
    simp only [buildAttachments]
    rcases List.mem_cons.mp hmem with h | h
    · subst h
      simp only [hr]
      exact List.mem_cons_self _ _
    · cases hr2 : w.readFile q with
      | ok c => simp only [hr2]; exact ih h
      | error e2 => simp only [hr2]; exact List.mem_cons_of_mem _ (ih h)

/-- C3: whenever validation passes and the transmission phase raises
(connection, TLS, authentication, recipient rejection, timeout or the
port conversion), send_mail catches the failure, logs its message and
returns False; send_mail is a total function, so no exception ever
reaches the caller — the boolean is the only signal. -/
theorem claim_C3_transmission_failure_caught (cfg : Config) (rcpts : List String)
    (subject body : String) (atts : List String) (html : Bool) (w : World) (e : String)
    (h0 : rcpts ≠ [])
    (hs : truthy (cfgGet cfg "smtp_server") = true)
    (hp : truthy (cfgGet cfg "smtp_port") = true)
    (he : truthy (cfgGet cfg "sender_email") = true)
    (hw : truthy (cfgGet cfg "password") = true)
    (herr : (transmitPhase w ((cfgGet cfg "smtp_server").getD "")
        ((cfgGet cfg "smtp_port").getD "") ((cfgGet cfg "sender_email").getD "")
        ((cfgGet cfg "password").getD "") rcpts
        (composeMessage cfg rcpts subject body html (buildAttachments w atts).1)).2 =
      Except.error e) :
    (send_mail cfg rcpts subject body atts html w).result = false ∧
    Effect.logError ("发送邮件失败: " ++ e) ∈
      (send_mail cfg rcpts subject body atts html w).effects := by
  have hre : rcpts.isEmpty = false := by
    cases rcpts with
    | nil => exact absurd rfl h0
    | cons a t => rfl
  rcases hT : transmitPhase w ((cfgGet cfg "smtp_server").getD "")
      ((cfgGet cfg "smtp_port").getD "") ((cfgGet cfg "sender_email").getD "")
      ((cfgGet cfg "password").getD "") rcpts
      (composeMessage cfg rcpts subject body html (buildAttachments w atts).1) with
    ⟨netEffects, r⟩
  rw [hT] at herr
  simp only at herr
  subst herr
  have hsend : send_mail cfg rcpts subject body atts html w =
      { result := false, validatedOk := true
        message := some (composeMessage cfg rcpts subject body html (buildAttachments w atts).1)
        effects := (buildAttachments w atts).2 ++ netEffects ++
          [Effect.logError ("发送邮件失败: " ++ e)]
        configAfter := cfg } := by
    simp [send_mail, hre, hs, hp, he, hw, hT]
  rw [hsend]
  exact ⟨rfl, by simp⟩

/-- C4: whenever validation passes, the composed message carries exactly
the readable attachments in order, each unreadable path gets its own
logged error, and when the transmission phase succeeds send_mail still
returns True — an attachment read failure alone never causes failure. -/
theorem claim_C4_attachment_failure_skipped (cfg : Config) (rcpts : List String)
    (subject body : String) (atts : List String) (html : Bool) (w : World)
    (h0 : rcpts ≠ [])
    (hs : truthy (cfgGet cfg "smtp_server") = true)
    (hp : truthy (cfgGet cfg "smtp_port") = true)
    (he : truthy (cfgGet cfg "sender_email") = true)
    (hw : truthy (cfgGet cfg "password") = true) :
    (send_mail cfg rcpts subject body atts html w).message =
      some (composeMessage cfg rcpts subject body html (atts.filterMap (readPart w))) ∧
    (∀ p e, p ∈ atts → w.readFile p = Except.error e →
      Effect.logError ("添加附件 " ++ p ++ " 失败: " ++ e) ∈
        (send_mail cfg rcpts subject body atts html w).effects) ∧
    ((transmitPhase w ((cfgGet cfg "smtp_server").getD "")
        ((cfgGet cfg "smtp_port").getD "") ((cfgGet cfg "sender_email").getD "")
        ((cfgGet cfg "password").getD "") rcpts
        (composeMessage cfg rcpts subject body html (buildAttachments w atts).1)).2 =
          Except.ok () →
      (send_mail cfg rcpts subject body atts html w).result = true) := by
  have hre : rcpts.isEmpty = false := by
    cases rcpts with
    | nil => exact absurd rfl h0
    | cons a t => rfl
  rcases hT : transmitPhase w ((cfgGet cfg "smtp_server").getD "")
      ((cfgGet cfg "smtp_port").getD "") ((cfgGet cfg "sender_email").getD "")
      ((cfgGet cfg "password").getD "") rcpts
      (composeMessage cfg rcpts subject body html (buildAttachments w atts).1) with
    ⟨netEffects, r⟩
  cases r with
  | ok u =>
    have hsend : send_mail cfg rcpts subject body atts html w =
        { result := true, validatedOk := true
          message := some (composeMessage cfg rcpts subject body html
            (buildAttachments w atts).1)
          effects := (buildAttachments w atts).2 ++ netEffects ++
            [Effect.logInfo ("邮件已成功发送给 " ++ String.intercalate ", " rcpts)]
          configAfter := cfg } := by
      simp [send_mail, hre, hs, hp, he, hw, hT]
    rw [hsend]
    refine ⟨by rw [buildAttachments_fst], ?_, fun _ => rfl⟩
    intro p e hpmem hrerr
    exact List.mem_append_left _
      (List.mem_append_left _ (buildAttachments_snd_mem w atts p e hpmem hrerr))
  | error e2 =>
    have hsend : send_mail cfg rcpts subject body atts html w =
        { result := false, validatedOk := true
          message := some (composeMessage cfg rcpts subject body html
            (buildAttachments w atts).1)
          effects := (buildAttachments w atts).2 ++ netEffects ++
            [Effect.logError ("发送邮件失败: " ++ e2)]
          configAfter := cfg } := by
      simp [send_mail, hre, hs, hp, he, hw, hT]
    rw [hsend]
    refine ⟨by rw [buildAttachments_fst], ?_, ?_⟩
    · intro p e hpmem hrerr
      exact List.mem_append_left _
        (List.mem_append_left _ (buildAttachments_snd_mem w atts p e hpmem hrerr))
    · intro hok
      simp at hok

/-- C10: with a non-empty but unparseable smtp_port value (and the other
required keys present and non-empty, and a non-empty recipients list),
send_mail passes all validation checks, and the int() failure is caught
in the transmission try block: the result is False, the error is logged,
and no network operation is attempted. -/
theorem claim_C10_unparseable_port (cfg : Config) (rcpts : List String)
    (subject body : String) (atts : List String) (html : Bool) (w : World)
    (h0 : rcpts ≠ [])
    (hs : truthy (cfgGet cfg "smtp_server") = true)
    (hp : truthy (cfgGet cfg "smtp_port") = true)
    (he : truthy (cfgGet cfg "sender_email") = true)
    (hw : truthy (cfgGet cfg "password") = true)
    (hbad : pyInt? ((cfgGet cfg "smtp_port").getD "") = none) :
    (send_mail cfg rcpts subject body atts html w).validatedOk = true ∧
    (send_mail cfg rcpts subject body atts html w).result = false ∧
    Effect.logError ("发送邮件失败: " ++ ("invalid literal for int() with base 10: '" ++
        (cfgGet cfg "smtp_port").getD "" ++ "'")) ∈
      (send_mail cfg rcpts subject body atts html w).effects ∧
    ((send_mail cfg rcpts subject body atts html w).effects.all (fun ef => !ef.isNet)) = true := by
  have hre : rcpts.isEmpty = false := by
    cases rcpts with
    | nil => exact absurd rfl h0
    | cons a t => rfl
  have hT : transmitPhase w ((cfgGet cfg "smtp_server").getD "")
      ((cfgGet cfg "smtp_port").getD "") ((cfgGet cfg "sender_email").getD "")
      ((cfgGet cfg "password").getD "") rcpts
      (composeMessage cfg rcpts subject body html (buildAttachments w atts).1) =
      ([], Except.error ("invalid literal for int() with base 10: '" ++
        (cfgGet cfg "smtp_port").getD "" ++ "'")) := by
    unfold transmitPhase
    rw [hbad]
  have hsend : send_mail cfg rcpts subject body atts html w =
      { result := false, validatedOk := true
        message := some (composeMessage cfg rcpts subject body html
          (buildAttachments w atts).1)
        effects := (buildAttachments w atts).2 ++
          [Effect.logError ("发送邮件失败: " ++ ("invalid literal for int() with base 10: '" ++
            (cfgGet cfg "smtp_port").getD "" ++ "'"))]
        configAfter := cfg } := by
    simp [send_mail, hre, hs, hp, he, hw, hT]
  rw [hsend]
  refine ⟨rfl, rfl, by simp, ?_⟩
  rw [List.all_eq_true]
  intro ef hef
  rcases List.mem_append.mp hef with h1 | h1
  · obtain ⟨s, rfl⟩ := buildAttachments_snd_logError w atts ef h1
    rfl
  · simp at h1
    subst h1
    rfl

/-! ### Association-list algebra for the configuration mapping -/

theorem cfgGet_setKey (c : Config) (k v k2 : String) :
    cfgGet (cfgSetKey c k v) k2 = if k = k2 then some v else cfgGet c k2 := by
  induction c with
  | nil => simp only [cfgSetKey, cfgGet]
  | cons p rest ih =>
    obtain ⟨k0, v0⟩ := p
    by_cases h : k0 = k
    · subst h
      simp only [cfgSetKey, if_pos rfl, cfgGet]
      by_cases h2 : k0 = k2 <;> simp [h2]
    · simp only [cfgSetKey, if_neg h, cfgGet, ih]
      by_cases h1 : k0 = k2 <;> by_cases h2 : k = k2 <;>
        simp [h1, h2]
      exact absurd (h2.trans h1.symm).symm h
  
theorem cfgKeys_setKey (c : Config) (k v : String) :
    cfgKeys (cfgSetKey c k v) =
      if k ∈ cfgKeys c then cfgKeys c else cfgKeys c ++ [k] := by
  induction c with
  | nil => simp [cfgSetKey, cfgKeys]
  | cons p rest ih =>
    obtain ⟨k0, v0⟩ := p
    by_cases h : k0 = k
    · subst h
      simp [cfgSetKey, cfgKeys]
    · have hne : ¬ k = k0 := fun he => h he.symm
      simp only [cfgSetKey, if_neg h, cfgKeys, List.map_cons]
      rw [show cfgKeys (cfgSetKey rest k v) = List.map Prod.fst (cfgSetKey rest k v) from rfl] at ih
      rw [ih]
      by_cases hm : k ∈ List.map Prod.fst rest <;>
        simp [cfgKeys, List.mem_cons, hne, hm]

theorem cfgKeys_setKey_nodup (c : Config) (k v : String) (h : (cfgKeys c).Nodup) :
    (cfgKeys (cfgSetKey c k v)).Nodup := by
  rw [cfgKeys_setKey]
  split
  · exact h
  · next hk => simp [List.nodup_append, h, hk]

theorem mem_cfgKeys_setKey (c : Config) (k v a : String) :
    a ∈ cfgKeys (cfgSetKey c k v) ↔ a ∈ cfgKeys c ∨ a = k := by
  rw [cfgKeys_setKey]
  split
  · next hk =>
    constructor
    · exact Or.inl
    · intro h
      rcases h with h | h
      · exact h
      · exact h ▸ hk
  · simp

theorem cfgGet_update (e : List (String × String)) (c : Config) (k : String) :
    cfgGet (cfgUpdate c e) k = oor (lastVal e k) (cfgGet c k) := by
  induction e generalizing c with
  | nil => simp [cfgUpdate, lastVal, oor]
  | cons p rest ih =>
    obtain ⟨k0, v0⟩ := p
    rw [cfgUpdate, ih, cfgGet_setKey]
    cases hl : lastVal rest k with
    | some v => simp [lastVal, hl, oor]
    | none =>
      by_cases hk : k0 = k <;> simp [lastVal, hl, oor, hk]

theorem mem_cfgKeys_update (e : List (String × String)) (c : Config) (a : String) :
    a ∈ cfgKeys (cfgUpdate c e) ↔ a ∈ cfgKeys c ∨ a ∈ e.map Prod.fst := by
  induction e generalizing c with
  | nil => simp [cfgUpdate]
  | cons p rest ih =>
    obtain ⟨k0, v0⟩ := p
    rw [cfgUpdate, ih, mem_cfgKeys_setKey]
    simp [List.mem_cons]
    tauto

theorem cfgKeys_update_of_subset (e : List (String × String)) (c : Config)
    (h : ∀ a, a ∈ e.map Prod.fst → a ∈ cfgKeys c) :
    cfgKeys (cfgUpdate c e) = cfgKeys c := by
  induction e generalizing c with
  | nil => rfl
  | cons p rest ih =>
    obtain ⟨k0, v0⟩ := p
    rw [cfgUpdate]
    have hk0 : k0 ∈ cfgKeys c := h k0 (by simp)
    have hkeys : cfgKeys (cfgSetKey c k0 v0) = cfgKeys c := by
      rw [cfgKeys_setKey, if_pos hk0]
    rw [ih (cfgSetKey c k0 v0) ?hsub, hkeys]
    case hsub =>
      intro a ha
      rw [hkeys]
      refine h a ?_
      rw [List.map_cons]
      exact List.mem_cons_of_mem _ ha

theorem cfgKeys_update_nodup (e : List (String × String)) (c : Config)
    (h : (cfgKeys c).Nodup) : (cfgKeys (cfgUpdate c e)).Nodup := by
  induction e generalizing c with
  | nil => exact h
  | cons p rest ih =>
    obtain ⟨k0, v0⟩ := p
    exact ih _ (cfgKeys_setKey_nodup c k0 v0 h)

theorem cfgGet_eq_none (c : Config) (k : String) (h : k ∉ cfgKeys c) :
    cfgGet c k = none := by
  induction c with
  | nil => rfl
  | cons p rest ih =>
    obtain ⟨k0, v0⟩ := p
    have h1 : ¬ k0 = k := fun he => h (by simp [cfgKeys, he])
    have h2 : k ∉ cfgKeys rest := fun hm => h (by simp [cfgKeys] at hm ⊢; exact Or.inr hm)
    simp [cfgGet, h1, ih h2]

theorem lastVal_eq_none (e : List (String × String)) (k : String)
    (h : k ∉ e.map Prod.fst) : lastVal e k = none := by
  induction e with
  | nil => rfl
  | cons p rest ih =>
    obtain ⟨k0, v0⟩ := p
    have h1 : ¬ k0 = k := fun he => h (by simp [he])
    have h2 : k ∉ rest.map Prod.fst := fun hm => h (by simp at hm ⊢; exact Or.inr hm)
    simp [lastVal, ih h2, h1]

theorem lastVal_eq_cfgGet (c : Config) (k : String) (h : (cfgKeys c).Nodup) :
    lastVal c k = cfgGet c k := by
  induction c with
  | nil => rfl
  | cons p rest ih =>
    obtain ⟨k0, v0⟩ := p
    have h2 : (k0 :: List.map Prod.fst rest).Nodup := h
    have hnm : k0 ∉ List.map Prod.fst rest := (List.nodup_cons.mp h2).1
    have hnd : (cfgKeys rest).Nodup := (List.nodup_cons.mp h2).2
    by_cases hk : k0 = k
    · subst hk
      simp [lastVal, lastVal_eq_none rest k0 hnm, cfgGet]
    · simp only [lastVal, ih hnd, cfgGet, if_neg hk]
      cases hg : cfgGet rest k <;> simp [hg]

theorem cfg_ext (c1 : Config) : ∀ c2 : Config, (cfgKeys c1).Nodup → (cfgKeys c2).Nodup →
    cfgKeys c1 = cfgKeys c2 → (∀ k, cfgGet c1 k = cfgGet c2 k) → c1 = c2 := by
  induction c1 with
  | nil =>
    intro c2 _ _ hk _
    cases c2 with
    | nil => rfl
    | cons q t2 => exact absurd hk (by simp [cfgKeys])
  | cons p t1 ih =>
    intro c2 h1 h2 hk hg
    obtain ⟨k1, v1⟩ := p
    cases c2 with
    | nil => exact absurd hk (by simp [cfgKeys])
    | cons q t2 =>
      obtain ⟨k2, v2⟩ := q
      have hkk : k1 = k2 ∧ cfgKeys t1 = cfgKeys t2 := by
        simpa [cfgKeys] using hk
      obtain ⟨hke, hkt⟩ := hkk
      subst hke
      have hv : v1 = v2 := by
        have := hg k1
        simpa [cfgGet] using this
      subst hv
      have hc1 : (k1 :: List.map Prod.fst t1).Nodup := h1
      have hc2 : (k1 :: List.map Prod.fst t2).Nodup := h2
      have hm1 : k1 ∉ List.map Prod.fst t1 := (List.nodup_cons.mp hc1).1
      have hm2 : k1 ∉ List.map Prod.fst t2 := (List.nodup_cons.mp hc2).1
      have ht : t1 = t2 := by
        refine ih t2 (List.nodup_cons.mp hc1).2 (List.nodup_cons.mp hc2).2 hkt ?_
        intro k
        by_cases hkq : k1 = k
        · subst hkq
          rw [cfgGet_eq_none t1 k1 hm1, cfgGet_eq_none t2 k1 hm2]
        · have := hg k
          simpa [cfgGet, hkq] using this
      rw [ht]

theorem cfgUpdate_idem (c : Config) (e : List (String × String))
    (h : (cfgKeys c).Nodup) :
    cfgUpdate (cfgUpdate c e) e = cfgUpdate c e := by
  have hn1 : (cfgKeys (cfgUpdate c e)).Nodup := cfgKeys_update_nodup e c h
  apply cfg_ext
  · exact cfgKeys_update_nodup e _ hn1
  · exact hn1
  · apply cfgKeys_update_of_subset
    intro a ha
    exact (mem_cfgKeys_update e c a).mpr (Or.inr ha)
  · intro k
    simp only [cfgGet_update]
    cases lastVal e k <;> simp [oor]

/-! ### Concrete worlds, configurations and file systems -/

/-- A world in which every operation succeeds; attachment reads return
synthetic content except for the path "bad.bin", which is unreadable. -/
def wOk : World :=
  { readFile := fun p => if p = "bad.bin"
      then Except.error "[Errno 2] No such file or directory: 'bad.bin'"
      else Except.ok ("data:" ++ p)
    connect := fun _ _ => Except.ok ()
    login := fun _ _ => Except.ok ()
    sendmail := fun _ _ _ => Except.ok ()
    write := fun _ => WriteResult.ok }

/-- A world in which opening the TLS connection fails. -/
def wConnFail : World :=
  { readFile := fun p => Except.ok ("data:" ++ p)
    connect := fun _ _ => Except.error "[Errno 111] Connection refused"
    login := fun _ _ => Except.ok ()
    sendmail := fun _ _ _ => Except.ok ()
    write := fun _ => WriteResult.ok }

/-- A world in which the configuration file cannot be opened for
writing, so the file is untouched. -/
def wDenied : World :=
  { readFile := fun p => Except.ok ("data:" ++ p)
    connect := fun _ _ => Except.ok ()
    login := fun _ _ => Except.ok ()
    sendmail := fun _ _ _ => Except.ok ()
    write := fun _ =>
      WriteResult.openFail "[Errno 13] Permission denied: 'mail_config.json'" }

/-- A world in which the file opens (and is truncated) but the dump
fails midway, leaving a partial, unparseable file behind. -/
def wPartial : World :=
  { readFile := fun p => Except.ok ("data:" ++ p)
    connect := fun _ _ => Except.ok ()
    login := fun _ _ => Except.ok ()
    sendmail := fun _ _ _ => Except.ok ()
    write := fun _ => WriteResult.dumpFail "[Errno 28] No space left on device"
      (FileContent.invalid "Expecting value: line 1 column 1 (char 0)") }

/-- A complete SMTP configuration, with one key outside the recognized
schema. -/
def cfgGood : Config :=
  [("smtp_server", "smtp.example.com"), ("smtp_port", "465"),
   ("sender_email", "alice@example.com"), ("password", "secret"),
   ("custom_key", "custom_value")]

/-- A configuration whose smtp_port value is non-empty but not an
integer literal. -/
def cfgBadPort : Config :=
  [("smtp_server", "smtp.example.com"), ("smtp_port", "not_a_number"),
   ("sender_email", "alice@example.com"), ("password", "secret")]

/-- A file system holding one unparseable configuration file. -/
def fsBad : FS := fun p =>
  if p = "mail_config.json"
  then some (FileContent.invalid "Expecting value: line 1 column 1 (char 0)")
  else none

/-- A file system holding one well-formed configuration file. -/
def fsGood : FS := fun p =>
  if p = "mail_config.json" then some (FileContent.obj cfgGood) else none

/-! ### Claim theorems: the configuration store -/

/-- C5: saving a configuration (with the unique keys every Python dict
has) to a writable path and then loading that path into a fresh empty
configuration restores every key to its value in the original — keys
outside the recognized schema included. -/
theorem claim_C5_save_load_roundtrip (cfg : Config) (fs : FS) (path : String) (w : World)
    (hnd : (cfgKeys cfg).Nodup) (hw : w.write path = WriteResult.ok) :
    ∀ k : String,
      cfgGet (load_config [] (save_config cfg fs path w).fs path).config k =
        cfgGet cfg k := by
  intro k
  have hfs : (save_config cfg fs path w).fs path = some (FileContent.obj cfg) := by
    unfold save_config
    rw [hw]
    simp
  have hload : (load_config [] (save_config cfg fs path w).fs path).config =
      cfgUpdate [] cfg := by
    unfold load_config
    rw [hfs]
  rw [hload, cfgGet_update, lastVal_eq_cfgGet cfg k hnd]
  cases hg : cfgGet cfg k <;> simp [oor, cfgGet]

/-- C6: when the configuration file exists but does not parse,
load_config logs the error and leaves the in-memory configuration
exactly as it was; the call still returns normally. -/
theorem claim_C6_parse_failure_atomic (cfg : Config) (fs : FS) (path e : String)
    (h : fs path = some (FileContent.invalid e)) :
    (load_config cfg fs path).config = cfg ∧
    Effect.logError ("加载配置文件失败: " ++ e) ∈ (load_config cfg fs path).effects ∧
    (load_config cfg fs path).ret = Except.ok () := by
  unfold load_config
  rw [h]
  exact ⟨rfl, by simp, rfl⟩

/-- C7 counterexample: at a concrete unwritable path save_config returns
normally with no failure value, and at a concrete unparseable file
load_config does too; in both cases the only record of the failure is a
log line, so the caller is not notified and cannot distinguish failure
from success — contrary to the claim. A mid-dump failure likewise
returns normally while leaving a partial, unparseable file behind. -/
theorem claim_C7_counterexample :
    (save_config cfgGood (fun _ => none) "mail_config.json" wDenied).ret = Except.ok () ∧
    (save_config cfgGood (fun _ => none) "mail_config.json" wDenied).effects =
      [Effect.logError "保存配置文件失败: [Errno 13] Permission denied: 'mail_config.json'"] ∧
    (load_config [] fsBad "mail_config.json").ret = Except.ok () ∧
    (load_config [] fsBad "mail_config.json").effects =
      [Effect.logError "加载配置文件失败: Expecting value: line 1 column 1 (char 0)"] ∧
    (save_config cfgGood fsGood "mail_config.json" wPartial).ret = Except.ok () ∧
    (save_config cfgGood fsGood "mail_config.json" wPartial).fs "mail_config.json" =
      some (FileContent.invalid "Expecting value: line 1 column 1 (char 0)") := by
  exact ⟨rfl, rfl, rfl, rfl, rfl, rfl⟩

/-- C7 amended: on a save I/O failure (whether the open fails and the
file is untouched, or the dump fails midway and a partial file remains —
no guarantee is made about the file's contents), or a load parse failure
on an existing file, the exception is caught inside the operation: the
failure is logged, the call returns normally with no failure indication,
so the caller is not notified; load leaves the in-memory configuration
unchanged. -/
theorem claim_C7_errors_logged_only (cfg : Config) (fs : FS) (path e : String) (w : World)
    (hw : w.write path = WriteResult.openFail e ∨
      ∃ leftover, w.write path = WriteResult.dumpFail e leftover) :
    (save_config cfg fs path w).ret = Except.ok () ∧
    Effect.logError ("保存配置文件失败: " ++ e) ∈ (save_config cfg fs path w).effects ∧
    (∀ cfg2 e2, fs path = some (FileContent.invalid e2) →
      (load_config cfg2 fs path).ret = Except.ok () ∧
      (load_config cfg2 fs path).config = cfg2 ∧
      (load_config cfg2 fs path).effects =
        [Effect.logError ("加载配置文件失败: " ++ e2)]) := by
  have hload : ∀ cfg2 e2, fs path = some (FileContent.invalid e2) →
      (load_config cfg2 fs path).ret = Except.ok () ∧
      (load_config cfg2 fs path).config = cfg2 ∧
      (load_config cfg2 fs path).effects =
        [Effect.logError ("加载配置文件失败: " ++ e2)] := by
    intro cfg2 e2 h2
    unfold load_config
    rw [h2]
    exact ⟨rfl, rfl, rfl⟩
  rcases hw with hw | ⟨leftover, hw⟩ <;>
    · unfold save_config
      rw [hw]
      exact ⟨rfl, by simp, hload⟩

/-- C9: loading the same file state twice with no intervening save gives
the same in-memory configuration as loading it once, for every starting
configuration (with the unique keys every Python dict has). -/
theorem claim_C9_load_idempotent (cfg : Config) (fs : FS) (path : String)
    (h : (cfgKeys cfg).Nodup) :
    (load_config (load_config cfg fs path).config fs path).config =
      (load_config cfg fs path).config := by
  unfold load_config
  cases hf : fs path with
  | none => rfl
  | some fc =>
    cases fc with
    | obj e => exact cfgUpdate_idem cfg e h
    | invalid m => rfl

/-! ### Witnesses: each hypothesis discharged at a concrete input -/

theorem claim_C2_incomplete_config_witness :
    ((["bob@example.com"] : List String) ≠ []) ∧
    truthy (cfgGet [] "smtp_server") = false ∧
    (send_mail [] ["bob@example.com"] "Hi" "body" [] false wOk).result = false := by
  refine ⟨by decide, rfl, ?_⟩
  exact (claim_C2_incomplete_config [] ["bob@example.com"] "Hi" "body" [] false wOk
    (by decide) (Or.inl rfl)).1

theorem claim_C3_transmission_failure_caught_witness :
    ((["bob@example.com"] : List String) ≠ []) ∧
    truthy (cfgGet cfgGood "smtp_server") = true ∧
    (transmitPhase wConnFail ((cfgGet cfgGood "smtp_server").getD "")
        ((cfgGet cfgGood "smtp_port").getD "") ((cfgGet cfgGood "sender_email").getD "")
        ((cfgGet cfgGood "password").getD "") ["bob@example.com"]
        (composeMessage cfgGood ["bob@example.com"] "Hi" "body" false
          (buildAttachments wConnFail []).1)).2 =
      Except.error "[Errno 111] Connection refused" ∧
    (send_mail cfgGood ["bob@example.com"] "Hi" "body" [] false wConnFail).result = false := by
  refine ⟨by decide, rfl, rfl, ?_⟩
  exact (claim_C3_transmission_failure_caught cfgGood ["bob@example.com"] "Hi" "body" [] false
    wConnFail "[Errno 111] Connection refused" (by decide) rfl rfl rfl rfl rfl).1

theorem claim_C4_attachment_failure_skipped_witness :
    ((["bob@example.com"] : List String) ≠ []) ∧
    truthy (cfgGet cfgGood "smtp_server") = true ∧
    wOk.readFile "bad.bin" = Except.error "[Errno 2] No such file or directory: 'bad.bin'" ∧
    (send_mail cfgGood ["bob@example.com"] "Hi" "body" ["a.txt", "bad.bin", "b.txt", "c.txt"]
      false wOk).result = true ∧
    (send_mail cfgGood ["bob@example.com"] "Hi" "body" ["a.txt", "bad.bin", "b.txt", "c.txt"]
      false wOk).message =
      some (composeMessage cfgGood ["bob@example.com"] "Hi" "body" false
        (["a.txt", "bad.bin", "b.txt", "c.txt"].filterMap (readPart wOk))) := by
  have h := claim_C4_attachment_failure_skipped cfgGood ["bob@example.com"] "Hi" "body"
    ["a.txt", "bad.bin", "b.txt", "c.txt"] false wOk (by decide) rfl rfl rfl rfl
  exact ⟨by decide, rfl, rfl, h.2.2 rfl, h.1⟩

theorem claim_C5_save_load_roundtrip_witness :
    (cfgKeys cfgGood).Nodup ∧
    wOk.write "mail_config.json" = WriteResult.ok ∧
    cfgGet (load_config [] (save_config cfgGood (fun _ => none) "mail_config.json" wOk).fs
      "mail_config.json").config "custom_key" = cfgGet cfgGood "custom_key" := by
  refine ⟨by decide, rfl, ?_⟩
  exact claim_C5_save_load_roundtrip cfgGood (fun _ => none) "mail_config.json" wOk
    (by decide) rfl "custom_key"

theorem claim_C6_parse_failure_atomic_witness :
    fsBad "mail_config.json" =
      some (FileContent.invalid "Expecting value: line 1 column 1 (char 0)") ∧
    (load_config cfgGood fsBad "mail_config.json").config = cfgGood := by
  refine ⟨rfl, ?_⟩
  exact (claim_C6_parse_failure_atomic cfgGood fsBad "mail_config.json"
    "Expecting value: line 1 column 1 (char 0)" rfl).1

theorem claim_C7_errors_logged_only_witness :
    (wDenied.write "mail_config.json" =
        WriteResult.openFail "[Errno 13] Permission denied: 'mail_config.json'" ∨
      ∃ leftover, wDenied.write "mail_config.json" =
        WriteResult.dumpFail "[Errno 13] Permission denied: 'mail_config.json'" leftover) ∧
    (save_config cfgGood fsBad "mail_config.json" wDenied).ret = Except.ok () ∧
    Effect.logError ("保存配置文件失败: " ++ "[Errno 13] Permission denied: 'mail_config.json'") ∈
      (save_config cfgGood fsBad "mail_config.json" wDenied).effects := by
  have h := claim_C7_errors_logged_only cfgGood fsBad "mail_config.json"
    "[Errno 13] Permission denied: 'mail_config.json'" wDenied (Or.inl rfl)
  exact ⟨Or.inl rfl, h.1, h.2.1⟩

theorem claim_C9_load_idempotent_witness :
    (cfgKeys ([("language", "zh_CN")] : Config)).Nodup ∧
    (load_config (load_config [("language", "zh_CN")] fsGood "mail_config.json").config
        fsGood "mail_config.json").config =
      (load_config [("language", "zh_CN")] fsGood "mail_config.json").config := by
  refine ⟨by decide, ?_⟩
  exact claim_C9_load_idempotent [("language", "zh_CN")] fsGood "mail_config.json" (by decide)

theorem claim_C10_unparseable_port_witness :
    ((["bob@example.com"] : List String) ≠ []) ∧
    truthy (cfgGet cfgBadPort "smtp_port") = true ∧
    pyInt? ((cfgGet cfgBadPort "smtp_port").getD "") = none ∧
    (send_mail cfgBadPort ["bob@example.com"] "Hi" "body" [] false wOk).validatedOk = true ∧
    (send_mail cfgBadPort ["bob@example.com"] "Hi" "body" [] false wOk).result = false := by
  have h := claim_C10_unparseable_port cfgBadPort ["bob@example.com"] "Hi" "body" [] false wOk
    (by decide) rfl rfl rfl rfl rfl
  exact ⟨by decide, rfl, rfl, h.1, h.2.1⟩
